import Mathlib

/-
Verification of the view-state and location-management core of a
feature-flag-driven weather application.

The development shallowly embeds the JavaScript modules
locationStorage.js, errorHandler.js (its storage-quota handler),
viewStateManager.js, editLocationHandler.js (its submit handler) and the
auth-location integration module.  Machine-level JavaScript details are
modelled as follows: numbers relevant to the claims are integers (Int) or
clock readings (Nat); ISO-8601 timestamps produced by Date.toISOString are
modelled by a Nat clock value passed explicitly (string comparison of
ISO-8601 timestamps agrees with the chronological order of the clock);
crypto.randomUUID is an explicitly passed fresh identifier; fields of
loosely-typed JS objects that may be missing or of the wrong type are
Option-valued, with none standing for a missing / wrongly-typed field;
localStorage together with the module-level in-memory fallback Map is an
explicit Store value threaded through every operation, and a thrown JS
exception is an Except error value.
-/

namespace WeatherApp

/-- Character class used by the JavaScript trim operation (whitespace). -/
def jsIsSpace (c : Char) : Bool :=
  c == ' ' || c == '\t' || c == '\n' || c == '\r'

/-- Model of the JavaScript String.prototype.trim operation: removes
leading and trailing whitespace. -/
def jsTrim (s : String) : String :=
  String.mk (((s.data.dropWhile jsIsSpace).reverse.dropWhile jsIsSpace).reverse)

/-- Model of the JavaScript String.prototype.toLowerCase operation. -/
def jsToLower (s : String) : String :=
  String.mk (s.data.map Char.toLower)

/-- Truthiness of an optional JS string: undefined/null and the empty
string are falsy, every other string is truthy. -/
def strTruthy : Option String → Bool
  | none => false
  | some s => s != ""

/-- A thrown JavaScript error value, with the fields the embedded code
inspects: error.name, error.code and error.message. -/
structure JsError where
  name : String
  code : Option Int
  message : String
deriving DecidableEq

/-- Coordinate pair of a saved location. -/
structure Coordinates where
  latitude : Int
  longitude : Int
deriving DecidableEq

/-- A saved location record as persisted by locationStorage.js. -/
structure Location where
  id : String
  name : String
  coordinates : Coordinates
  query : String
  addedAt : Nat
  updatedAt : Nat
deriving DecidableEq

/-- Default location record, used only for the in-bounds list access that
follows a successful findIndex in the JavaScript code. -/
def dfltLocation : Location :=
  { id := "", name := "", coordinates := { latitude := 0, longitude := 0 },
    query := "", addedAt := 0, updatedAt := 0 }

instance : Inhabited Location := ⟨dfltLocation⟩

/-- A parsed value read back from the persistent store.  The read path of
the code distinguishes exactly three shapes: an object whose locations
field is an array (the well-formed envelope, paired with its version tag),
an object without an array-valued locations field, and a non-object JSON
value. -/
inductive StoredVal : Type where
  | env (locations : List Location) (version : Int)
  | objWithoutLocations
  | nonObject
deriving DecidableEq

/-- State of the storage layer: the durable localStorage contents, the
module-level inMemoryStorage Map of locationStorage.js, and the failure
behaviour of the durable backend (whether localStorage.setItem throws,
and with which error, and whether localStorage.getItem throws).  Values
are kept in parsed form; JSON.stringify followed by JSON.parse is the
identity on the envelope values the module writes. -/
structure Store where
  localItems : List (String × StoredVal)
  memItems : List (String × StoredVal)
  setItemError : Option JsError
  getItemThrows : Bool
deriving DecidableEq

/-- Source getStorageKey: storage key for the locations of one user. -/
def getStorageKey (userEmail : String) : String :=
  "weatherAppLocations_" ++ userEmail

/-- Source handleStorageQuotaError in errorHandler.js.  The module imports
the logger function under the name logError, so inside the handler the
name error denotes the Error argument itself; the handler invokes it as a
function, which raises a TypeError before the handler can return its
user-facing message.  The model therefore throws. -/
def handleStorageQuotaError (_e : JsError) : Except JsError String :=
  .error { name := "TypeError", code := none, message := "error is not a function" }

/-- Source saveToStorage: try localStorage.setItem; on a thrown error,
route quota-exceeded errors (name QuotaExceededError or code 22) through
handleStorageQuotaError and all other errors through a console warning,
then fall back to inMemoryStorage.set.  An exception raised by
handleStorageQuotaError propagates out of the catch block, skipping the
fallback write. -/
def saveToStorage (st : Store) (key : String) (value : StoredVal) :
    Except JsError Store :=
  match st.setItemError with
  | none => .ok { st with localItems := (key, value) :: st.localItems }
  | some e =>
    if e.name == "QuotaExceededError" || e.code == some 22 then
      match handleStorageQuotaError e with
      | .error e2 => .error e2
      | .ok _ => .ok { st with memItems := (key, value) :: st.memItems }
    else
      .ok { st with memItems := (key, value) :: st.memItems }

/-- Source getFromStorage: try localStorage.getItem and JSON.parse; on a
thrown error fall back to inMemoryStorage.get, with a missing entry read
as null. -/
def getFromStorage (st : Store) (key : String) : Option StoredVal :=
  if st.getItemThrows then List.lookup key st.memItems
  else List.lookup key st.localItems

/-- Coordinate fields of a candidate location object; none models a
missing or non-number field. -/
structure CoordinatesInput where
  latitude : Option Int
  longitude : Option Int
deriving DecidableEq

/-- A candidate location object passed to save; none models a missing or
wrongly-typed field. -/
structure LocationInput where
  name : Option String
  coordinates : Option CoordinatesInput
  query : Option String
deriving DecidableEq

/-- Result of validateLocation. -/
structure ValidationResult where
  valid : Bool
  errors : List String
deriving DecidableEq

/-- Source validateLocation: checks the name is a non-empty string after
trim, the coordinates are numbers within range, and the query is a
non-empty string; collects every violated rule. -/
def validateLocation (location : Option LocationInput) : ValidationResult :=
  match location with
  | none => { valid := false, errors := ["Location object is required"] }
  | some loc =>
    let nameErrors :=
      match loc.name with
      | some n => if jsTrim n == "" then ["Location name is required"] else []
      | none => ["Location name is required"]
    let coordErrors :=
      match loc.coordinates with
      | none => ["Location coordinates are required"]
      | some c =>
        (match c.latitude with
         | some lat =>
           if lat < -90 || lat > 90 then ["Valid latitude is required (-90 to 90)"] else []
         | none => ["Valid latitude is required (-90 to 90)"]) ++
        (match c.longitude with
         | some lon =>
           if lon < -180 || lon > 180 then ["Valid longitude is required (-180 to 180)"] else []
         | none => ["Valid longitude is required (-180 to 180)"])
    let queryErrors :=
      match loc.query with
      | some q => if q == "" then ["Location query is required"] else []
      | none => ["Location query is required"]
    let errors := nameErrors ++ coordErrors ++ queryErrors
    { valid := errors.isEmpty, errors := errors }

/-- Source normalizeName: lowercase then trim, for duplicate detection. -/
def normalizeName (name : String) : String :=
  jsTrim (jsToLower name)

/-- Source getLocations: read the stored envelope for the user; a missing
entry or a payload without an array-valued locations field degrades to the
empty list. -/
def getLocations (st : Store) (userEmail : String) : List Location :=
  match getFromStorage st (getStorageKey userEmail) with
  | some (.env locs _) => locs
  | some .objWithoutLocations => []
  | some .nonObject => []
  | none => []

/-- Source locationExists: true iff some stored location of the user has
the same normalized name. -/
def locationExists (st : Store) (userEmail : String) (locationName : String) : Bool :=
  (getLocations st userEmail).any (fun loc => normalizeName loc.name == normalizeName locationName)

/-- Result value of the repository CRUD operations. -/
structure OpResult where
  success : Bool
  error : Option String := none
  location : Option Location := none
deriving DecidableEq

/-- Source saveLocation: validate, reject duplicates, append a fresh
record with both timestamps set to now, and persist the envelope.  The
fresh identifier produced by crypto.randomUUID and the clock reading are
explicit arguments. -/
def saveLocation (newId : String) (now : Nat) (userEmail : String)
    (location : Option LocationInput) (st : Store) : OpResult × Store :=
  match location with
  | none =>
    ({ success := false,
       error := some "Invalid location data: Location object is required" }, st)
  | some loc =>
    let validation := validateLocation (some loc)
    if !validation.valid then
      ({ success := false,
         error := some ("Invalid location data: " ++ String.intercalate ", " validation.errors) }, st)
    else if locationExists st userEmail (loc.name.getD "") then
      ({ success := false, error := some "This location is already in your favorites" }, st)
    else
      let locations := getLocations st userEmail
      let newLocation : Location :=
        { id := newId,
          name := loc.name.getD "",
          coordinates :=
            { latitude := ((loc.coordinates.getD { latitude := none, longitude := none }).latitude).getD 0,
              longitude := ((loc.coordinates.getD { latitude := none, longitude := none }).longitude).getD 0 },
          query := loc.query.getD "",
          addedAt := now,
          updatedAt := now }
      let locations2 := locations ++ [newLocation]
      match saveToStorage st (getStorageKey userEmail) (.env locations2 1) with
      | .ok st2 => ({ success := true, location := some newLocation }, st2)
      | .error e => ({ success := false, error := some e.message }, st)

/-- Partial update object passed to updateLocation.  The id, coordinates,
addedAt and updatedAt fields may be present in the JS object but are
overridden by the merge in updateLocation and never read. -/
structure LocationUpdates where
  name : Option String := none
  query : Option String := none
  id : Option String := none
  coordinates : Option Coordinates := none
  addedAt : Option Nat := none
  updatedAt : Option Nat := none
deriving DecidableEq

/-- View of a stored record as a validation candidate, for the
re-validation step of updateLocation (every field is present). -/
def locationToInput (l : Location) : LocationInput :=
  { name := some l.name,
    coordinates := some { latitude := some l.coordinates.latitude,
                          longitude := some l.coordinates.longitude },
    query := some l.query }

/-- Source updateLocation: find the record by id, merge the updates over
it while forcing id, coordinates and addedAt back to their stored values
and setting updatedAt to now, re-validate, re-check name uniqueness
against the other records, and persist. -/
def updateLocation (now : Nat) (userEmail : String) (locationId : String)
    (updates : LocationUpdates) (st : Store) : OpResult × Store :=
  let locations := getLocations st userEmail
  match locations.findIdx? (fun loc => loc.id == locationId) with
  | none => ({ success := false, error := some "Location not found" }, st)
  | some index =>
    let old := locations.getD index dfltLocation
    let updatedLocation : Location :=
      { id := locationId,
        name := updates.name.getD old.name,
        coordinates := old.coordinates,
        query := updates.query.getD old.query,
        addedAt := old.addedAt,
        updatedAt := now }
    let validation := validateLocation (some (locationToInput updatedLocation))
    if !validation.valid then
      ({ success := false,
         error := some ("Invalid location data: " ++ String.intercalate ", " validation.errors) }, st)
    else
      let normalized := normalizeName updatedLocation.name
      let duplicate := locations.enum.any
        (fun p => p.1 != index && normalizeName p.2.name == normalized)
      if duplicate then
        ({ success := false, error := some "A location with this name already exists" }, st)
      else
        let locations2 := locations.set index updatedLocation
        match saveToStorage st (getStorageKey userEmail) (.env locations2 1) with
        | .ok st2 => ({ success := true, location := some updatedLocation }, st2)
        | .error e => ({ success := false, error := some e.message }, st)

/-- Source deleteLocation: find the record by id, remove it, persist the
remaining records. -/
def deleteLocation (userEmail : String) (locationId : String) (st : Store) :
    OpResult × Store :=
  let locations := getLocations st userEmail
  match locations.findIdx? (fun loc => loc.id == locationId) with
  | none => ({ success := false, error := some "Location not found" }, st)
  | some index =>
    let locations2 := locations.eraseIdx index
    match saveToStorage st (getStorageKey userEmail) (.env locations2 1) with
    | .ok st2 => ({ success := true }, st2)
    | .error e => ({ success := false, error := some e.message }, st)

/-- A feature-flag source, modelling the variation method of the SDK
client: flag key and default value in, flag value out. -/
def FlagSource : Type := String → Bool → Bool

/-- Evaluation of the save-locations flag as written at each use site:
ldClient ? ldClient.variation(key, false) : false. -/
def flagVariation (ldClient : Option FlagSource) (key : String) (deflt : Bool) : Bool :=
  match ldClient with
  | some client => client key deflt
  | none => false

/-- The user sub-record of the view state. -/
structure ViewUser where
  email : Option String
  isAnonymous : Bool
deriving DecidableEq

/-- The module-level viewState object of viewStateManager.js. -/
structure ViewState where
  currentView : String
  selectedLocationId : Option String
  user : ViewUser
deriving DecidableEq

/-- Initial value of the module-level viewState object. -/
def initialViewState : ViewState :=
  { currentView := "detail", selectedLocationId := none,
    user := { email := none, isAnonymous := true } }

/-- The mutable world the view-state module acts on: the storage layer
(read through getLocations), the viewState object and the URL fragment
window.location.hash. -/
structure SystemState where
  store : Store
  view : ViewState
  hash : String
deriving DecidableEq

/-- Argument object of setUserContext; the isAnonymous field of the JS
object may be missing (none). -/
structure UserContextArg where
  email : Option String
  isAnonymous : Option Bool
deriving DecidableEq

/-- Source setUserContext: stores the email, nulling falsy emails via the
expression user.email OR null, and stores isAnonymous as the result of
user.isAnonymous strictly-unequal-to false. -/
def setUserContext (user : UserContextArg) (s : SystemState) : SystemState :=
  { s with view :=
    { s.view with user :=
      { email := match user.email with
                 | some e => if e == "" then none else some e
                 | none => none,
        isAnonymous := user.isAnonymous != some false } } }

/-- Source determineView: flag off forces detail, anonymous users get
detail, named users get list from two locations upward, else detail. -/
def determineView (user : ViewUser) (locationCount : Int)
    (ldClient : Option FlagSource) : String :=
  let canSaveLocations := flagVariation ldClient "save-locations" false
  if !canSaveLocations then "detail"
  else if user.isAnonymous then "detail"
  else if locationCount ≥ 2 then "list"
  else "detail"

/-- Source shouldShowBackButton: detail view with at least two saved
locations. -/
def shouldShowBackButton (currentView : String) (locationCount : Int) : Bool :=
  currentView == "detail" && locationCount ≥ 2

/-- Source updateURLState: list view gets the locations fragment, detail
view with a truthy location id gets the location/<id> fragment, every
other combination clears the fragment. -/
def updateURLState (view : String) (locationId : Option String) (s : SystemState) :
    SystemState :=
  if view == "list" then { s with hash := "#locations" }
  else if view == "detail" && strTruthy locationId then
    { s with hash := "#location/" ++ locationId.getD "" }
  else { s with hash := "" }

/-- Source transitionToListView: set currentView to list, clear the
selected location, update the fragment.  The screen-reader announcement
and the render callback touch only the DOM and are outside the model. -/
def transitionToListView (s : SystemState) : SystemState :=
  updateURLState "list" none
    { s with view := { s.view with currentView := "list", selectedLocationId := none } }

/-- Source transitionToDetailView: set currentView to detail, select the
location, update the fragment. -/
def transitionToDetailView (locationId : String) (s : SystemState) : SystemState :=
  updateURLState "detail" (some locationId)
    { s with view :=
      { s.view with currentView := "detail", selectedLocationId := some locationId } }

/-- Source handleBackNavigation: only acts in detail view. -/
def handleBackNavigation (s : SystemState) : SystemState :=
  if s.view.currentView == "detail" then transitionToListView s else s

/-- Source handleCardClick: only acts in list view. -/
def handleCardClick (locationId : String) (s : SystemState) : SystemState :=
  if s.view.currentView == "list" then transitionToDetailView locationId s else s

/-- Source resetViewState: restore the initial viewState object and clear
the URL fragment. -/
def resetViewState (s : SystemState) : SystemState :=
  { s with view := initialViewState, hash := "" }

/-- A LaunchDarkly user context as consumed by the auth integration
module; anonymous is the truthiness of the anonymous field and none models
a null/undefined context object. -/
structure LDContext where
  email : Option String
  anonymous : Bool
deriving DecidableEq

/-- Source isNamedUser: context is non-null, not flagged anonymous and
carries a truthy email. -/
def isNamedUser (context : Option LDContext) : Bool :=
  match context with
  | none => false
  | some c => !c.anonymous && strTruthy c.email

/-- Source isAnonymousUser: context is null, flagged anonymous, or has a
falsy email. -/
def isAnonymousUser (context : Option LDContext) : Bool :=
  match context with
  | none => true
  | some c => c.anonymous || !strTruthy c.email

/-- Source shouldShowLocationManagementUI: false for anonymous users,
false when the save-locations flag is off, true otherwise. -/
def shouldShowLocationManagementUI (context : Option LDContext)
    (ldClient : Option FlagSource) : Bool :=
  if isAnonymousUser context then false
  else
    let canSaveLocations := flagVariation ldClient "save-locations" false
    if !canSaveLocations then false
    else true

/-- Return value of handleLogout. -/
structure LogoutResult where
  success : Bool
  message : String
deriving DecidableEq

/-- Source handleLogout: deliberately does not touch the stored locations;
marks the user context anonymous and empty, resets the view state, and
reports success.  The onLogoutComplete callback carries no state and is
outside the model. -/
def handleLogout (s : SystemState) : LogoutResult × SystemState :=
  let s1 := setUserContext { email := none, isAnonymous := some true } s
  let s2 := resetViewState s1
  ({ success := true, message := "Logged out successfully, locations preserved" }, s2)

/-- Outcome of handleEditLocationSubmit in editLocationHandler.js: the
handler either rejects an empty name, reports no changes, or calls
updateLocation and reports its result. -/
inductive EditOutcome : Type where
  | emptyName
  | noChange
  | updated (result : OpResult)
deriving DecidableEq

/-- Source handleEditLocationSubmit: reject an empty trimmed name, skip
the update when the trimmed name is unchanged, otherwise call
updateLocation with the trimmed name as the only updated field. -/
def handleEditLocationSubmit (now : Nat) (userEmail locationId newName : String)
    (originalLocation : Location) (s : SystemState) : EditOutcome × SystemState :=
  if jsTrim newName == "" then (.emptyName, s)
  else if jsTrim newName == jsTrim originalLocation.name then (.noChange, s)
  else
    let (result, st2) := updateLocation now userEmail locationId
      { name := some (jsTrim newName) } s.store
    (.updated result, { s with store := st2 })

/-- A flag source on which every flag evaluates to true. -/
def flagsOn : FlagSource := fun _ _ => true

/-- A flag source on which every flag evaluates to false. -/
def flagsOff : FlagSource := fun _ _ => false

/-- Whether the first character list is an initial segment of the second
(substring search helper). -/
def leadsWith : List Char → List Char → Bool
  | [], _ => true
  | _ :: _, [] => false
  | a :: as, b :: bs => a == b && leadsWith as bs

/-- Whether the first character list occurs contiguously inside the
second; used to state the stable-substring contract on error messages. -/
def occursIn (needle hay : List Char) : Bool :=
  match hay with
  | [] => leadsWith needle []
  | _ :: t => leadsWith needle hay || occursIn needle t

/-- A store with working durable backend and nothing stored. -/
def emptyStore : Store :=
  { localItems := [], memItems := [], setItemError := none, getItemThrows := false }

/-- A store whose entry for the example user is an object without an
array-valued locations field. -/
def malformedStore : Store :=
  { localItems := [(getStorageKey "user@example.com", .objWithoutLocations)],
    memItems := [], setItemError := none, getItemThrows := false }

/-- A quota-exceeded error as thrown by a full durable backend. -/
def quotaError : JsError :=
  { name := "QuotaExceededError", code := some 22, message := "QuotaExceededError" }

/-- A store whose durable backend is full: setItem throws the
quota-exceeded error and getItem throws as well. -/
def quotaStore : Store :=
  { localItems := [], memItems := [], setItemError := some quotaError,
    getItemThrows := true }

/-- A concrete valid location candidate. -/
def parisInput : LocationInput :=
  { name := some "Paris",
    coordinates := some { latitude := some 48, longitude := some 2 },
    query := some "Paris" }

/-- A second valid candidate whose name differs from parisInput only in
letter case and leading/trailing whitespace. -/
def parisShoutedInput : LocationInput :=
  { name := some "  PARIS ",
    coordinates := some { latitude := some 48, longitude := some 2 },
    query := some "paris query" }

/-- The record saveLocation constructs for a candidate on the success
path. -/
def savedRecord (newId : String) (now : Nat) (loc : LocationInput) : Location :=
  { id := newId,
    name := loc.name.getD "",
    coordinates :=
      { latitude := ((loc.coordinates.getD { latitude := none, longitude := none }).latitude).getD 0,
        longitude := ((loc.coordinates.getD { latitude := none, longitude := none }).longitude).getD 0 },
    query := loc.query.getD "",
    addedAt := now,
    updatedAt := now }

/-- The record updateLocation builds by merging an update object over a
stored record: id, coordinates and addedAt are forced back to the stored
values and updatedAt is set to the update time. -/
def mergedUpdate (locationId : String) (u : LocationUpdates) (r : Location)
    (now2 : Nat) : Location :=
  { id := locationId, name := u.name.getD r.name, coordinates := r.coordinates,
    query := u.query.getD r.query, addedAt := r.addedAt, updatedAt := now2 }

/-- The map a successful saveToStorage call writes into: localStorage when
setItem does not throw, the in-memory fallback otherwise. -/
def persistTarget (st : Store) : List (String × StoredVal) :=
  match st.setItemError with
  | none => st.localItems
  | some _ => st.memItems

/-- A concrete update object carrying only a trimmed new name, as built
by the edit-location submit handler. -/
def berlinRename : LocationUpdates := { name := some (jsTrim " Berlin ") }

/-- A system state sitting in the list view for a named user. -/
def listState : SystemState :=
  { store := emptyStore,
    view := { currentView := "list", selectedLocationId := none,
              user := { email := some "user@example.com", isAnonymous := false } },
    hash := "#locations" }

/-- The system state at process start. -/
def initSys : SystemState :=
  { store := emptyStore, view := initialViewState, hash := "" }

/-- C3: determineView returns detail whenever the save-locations flag is
off, regardless of identity and count; otherwise detail for anonymous
users regardless of count; otherwise list exactly when the location count
is at least two; and it satisfies the five concrete cases of the view
determination matrix. -/
theorem determineView_characterization :
    (∀ (user : ViewUser) (count : Int) (ldClient : Option FlagSource),
      determineView user count ldClient =
        if flagVariation ldClient "save-locations" false && !user.isAnonymous
            && decide (2 ≤ count)
        then "list" else "detail") ∧
    determineView ⟨some "a@b.com", false⟩ 3 (some flagsOn) = "list" ∧
    determineView ⟨some "a@b.com", false⟩ 1 (some flagsOn) = "detail" ∧
    determineView ⟨some "a@b.com", false⟩ 0 (some flagsOn) = "detail" ∧
    determineView ⟨some "a@b.com", true⟩ 5 (some flagsOn) = "detail" ∧
    determineView ⟨some "a@b.com", false⟩ 5 (some flagsOff) = "detail" := by
  refine ⟨?_, by decide, by decide, by decide, by decide, by decide⟩
  intro user count ldClient
  unfold determineView
  cases hf : flagVariation ldClient "save-locations" false
  · simp
  · cases ha : user.isAnonymous
    · by_cases hc : (2 : Int) ≤ count
      · simp [ge_iff_le, hc]
      · simp [ge_iff_le, hc]
    · simp

/-- C5: getLocations returns the stored sequence in storage order when a
well-formed envelope is stored, and the empty sequence whenever nothing is
stored for the user or the stored payload is a non-object or an object
without an array-valued locations field. -/
theorem getLocations_malformed_degrades_to_empty :
    ∀ (st : Store) (userEmail : String),
      (getFromStorage st (getStorageKey userEmail) = none →
        getLocations st userEmail = []) ∧
      (getFromStorage st (getStorageKey userEmail) = some .nonObject →
        getLocations st userEmail = []) ∧
      (getFromStorage st (getStorageKey userEmail) = some .objWithoutLocations →
        getLocations st userEmail = []) ∧
      (∀ (locs : List Location) (version : Int),
        getFromStorage st (getStorageKey userEmail) = some (.env locs version) →
        getLocations st userEmail = locs) := by
  intro st userEmail
  refine ⟨?_, ?_, ?_, ?_⟩
  · intro h; unfold getLocations; rw [h]
  · intro h; unfold getLocations; rw [h]
  · intro h; unfold getLocations; rw [h]
  · intro locs version h; unfold getLocations; rw [h]

/-- Witness for C5 at a concrete malformed store. -/
theorem getLocations_malformed_degrades_to_empty_witness :
    getFromStorage malformedStore (getStorageKey "user@example.com") =
      some .objWithoutLocations ∧
    getLocations malformedStore "user@example.com" = [] :=
  ⟨by decide,
   (getLocations_malformed_degrades_to_empty malformedStore "user@example.com").2.2.1
     (by decide)⟩

/-- C6: handleLogout leaves the storage layer untouched, so every stored
collection is unchanged in length and content, resets the view state to
the initial state and clears the history fragment. -/
theorem handleLogout_preserves_storage_resets_state :
    ∀ (s : SystemState) (userEmail : String),
      getLocations (handleLogout s).2.store userEmail = getLocations s.store userEmail ∧
      (handleLogout s).2.store = s.store ∧
      (handleLogout s).2.view =
        { currentView := "detail", selectedLocationId := none,
          user := { email := none, isAnonymous := true } } ∧
      (handleLogout s).2.hash = "" ∧
      (handleLogout s).1.success = true := by
  intro s userEmail
  exact ⟨rfl, rfl, rfl, rfl, rfl⟩

/-- C8: shouldShowLocationManagementUI is true exactly when the context is
a named user (non-null, not flagged anonymous, truthy email) and the
save-locations flag evaluates to true; equivalently it is the conjunction
of isNamedUser and the flag value, so either condition alone is not
sufficient. -/
theorem shouldShowLocationManagementUI_iff_named_and_flag :
    ∀ (context : Option LDContext) (ldClient : Option FlagSource),
      (shouldShowLocationManagementUI context ldClient = true ↔
        (∃ c, context = some c ∧ c.anonymous = false ∧ strTruthy c.email = true) ∧
        flagVariation ldClient "save-locations" false = true) ∧
      shouldShowLocationManagementUI context ldClient =
        (isNamedUser context && flagVariation ldClient "save-locations" false) := by
  intro context ldClient
  cases context with
  | none =>
    constructor
    · constructor
      · intro h; exact absurd h (by simp [shouldShowLocationManagementUI, isAnonymousUser])
      · rintro ⟨⟨c, hc, _⟩, _⟩; cases hc
    · simp [shouldShowLocationManagementUI, isAnonymousUser, isNamedUser]
  | some c =>
    cases ha : c.anonymous with
    | true =>
      constructor
      · constructor
        · intro h
          exact absurd h (by simp [shouldShowLocationManagementUI, isAnonymousUser, ha])
        · rintro ⟨⟨c2, hc2, ha2, _⟩, _⟩
          cases hc2; rw [ha] at ha2; cases ha2
      · simp [shouldShowLocationManagementUI, isAnonymousUser, isNamedUser, ha]
    | false =>
      cases he : strTruthy c.email with
      | false =>
        constructor
        · constructor
          · intro h
            exact absurd h
              (by simp [shouldShowLocationManagementUI, isAnonymousUser, ha, he])
          · rintro ⟨⟨c2, hc2, _, he2⟩, _⟩
            cases hc2; rw [he] at he2; cases he2
        · simp [shouldShowLocationManagementUI, isAnonymousUser, isNamedUser, ha, he]
      | true =>
        cases hf : flagVariation ldClient "save-locations" false with
        | false =>
          constructor
          · constructor
            · intro h
              exact absurd h
                (by simp [shouldShowLocationManagementUI, isAnonymousUser, ha, he, hf])
            · rintro ⟨_, hf2⟩; cases hf2
          · simp [shouldShowLocationManagementUI, isAnonymousUser, isNamedUser, ha, he, hf]
        | true =>
          constructor
          · constructor
            · intro _; exact ⟨⟨c, rfl, ha, he⟩, rfl⟩
            · intro _
              simp [shouldShowLocationManagementUI, isAnonymousUser, ha, he, hf]
          · simp [shouldShowLocationManagementUI, isAnonymousUser, isNamedUser, ha, he, hf]

/-- C10: setUserContext stores isAnonymous as true unless the argument
field is exactly the boolean false, stores the email as none whenever the
argument email is falsy (missing or empty), keeps a truthy email, and
leaves currentView and selectedLocationId unchanged. -/
theorem setUserContext_semantics :
    ∀ (u : UserContextArg) (s : SystemState),
      (setUserContext u s).view.user.isAnonymous = (u.isAnonymous != some false) ∧
      (setUserContext u s).view.user.email =
        (match u.email with
         | some e => if e == "" then none else some e
         | none => none) ∧
      (setUserContext u s).view.currentView = s.view.currentView ∧
      (setUserContext u s).view.selectedLocationId = s.view.selectedLocationId := by
  intro u s
  exact ⟨rfl, rfl, rfl, rfl⟩

/-- C7: from the list view, handleCardClick moves to the detail view of
the clicked location with the matching fragment, and a subsequent
handleBackNavigation returns to the list view with no selection and the
locations fragment; handleCardClick does nothing outside the list view and
handleBackNavigation does nothing outside the detail view.  The empty
string is excluded as a location id because identifiers are generated by
crypto.randomUUID and are never empty, while updateURLState treats an
empty id as falsy. -/
theorem cardClick_back_roundtrip :
    ∀ (s : SystemState) (locationId : String),
      (s.view.currentView = "list" → locationId ≠ "" →
        ((handleCardClick locationId s).view.currentView = "detail" ∧
         (handleCardClick locationId s).view.selectedLocationId = some locationId ∧
         (handleCardClick locationId s).hash = "#location/" ++ locationId ∧
         (handleBackNavigation (handleCardClick locationId s)).view.currentView = "list" ∧
         (handleBackNavigation (handleCardClick locationId s)).view.selectedLocationId = none ∧
         (handleBackNavigation (handleCardClick locationId s)).hash = "#locations")) ∧
      (s.view.currentView ≠ "list" → handleCardClick locationId s = s) ∧
      (s.view.currentView ≠ "detail" → handleBackNavigation s = s) := by
  intro s locationId
  refine ⟨?_, ?_, ?_⟩
  · intro hl hid
    have hid2 : (locationId != "") = true := by simp [bne_iff_ne, hid]
    simp [handleCardClick, handleBackNavigation, transitionToDetailView,
      transitionToListView, updateURLState, strTruthy, hl, hid2]
  · intro h
    simp [handleCardClick, beq_iff_eq, h]
  · intro h
    simp [handleBackNavigation, beq_iff_eq, h]

/-- Witness for C7: the round trip at a concrete list-view state and the
two no-effect cases at concrete states. -/
theorem cardClick_back_roundtrip_witness :
    ((handleCardClick "loc-1" listState).view.currentView = "detail" ∧
     (handleCardClick "loc-1" listState).view.selectedLocationId = some "loc-1" ∧
     (handleCardClick "loc-1" listState).hash = "#location/" ++ "loc-1" ∧
     (handleBackNavigation (handleCardClick "loc-1" listState)).view.currentView = "list" ∧
     (handleBackNavigation (handleCardClick "loc-1" listState)).view.selectedLocationId = none ∧
     (handleBackNavigation (handleCardClick "loc-1" listState)).hash = "#locations") ∧
    handleCardClick "loc-1" initSys = initSys ∧
    handleBackNavigation listState = listState :=
  ⟨(cardClick_back_roundtrip listState "loc-1").1 rfl (by decide),
   (cardClick_back_roundtrip initSys "loc-1").2.1 (by decide),
   (cardClick_back_roundtrip listState "loc-1").2.2 (by decide)⟩

/-- C1: on a durable backend that throws a quota-exceeded error, the write
path does not fall back to the in-memory map.  The quota branch of
saveToStorage calls handleStorageQuotaError, which invokes its Error
argument as a function and so raises a TypeError before the fallback
write; saveToStorage propagates the exception, saveLocation reports
failure with the TypeError message, the in-memory map stays empty and the
saved value is not retrievable afterwards.  This contradicts the spec
contract that the store write never throws and leaves the value
retrievable, and the intent of the fallback branch itself. -/
theorem saveToStorage_quota_path_raises_and_loses_value :
    saveToStorage quotaStore (getStorageKey "user@example.com") (.env [] 1) =
      .error { name := "TypeError", code := none, message := "error is not a function" } ∧
    (saveLocation "id-1" 0 "user@example.com" (some parisInput) quotaStore).1.success = false ∧
    (saveLocation "id-1" 0 "user@example.com" (some parisInput) quotaStore).1.error =
      some "error is not a function" ∧
    getLocations (saveLocation "id-1" 0 "user@example.com" (some parisInput) quotaStore).2
      "user@example.com" = [] ∧
    (saveLocation "id-1" 0 "user@example.com" (some parisInput) quotaStore).2.memItems = [] := by
  exact ⟨rfl, rfl, rfl, rfl, rfl⟩

theorem getLocations_localWrite (st : Store) (userEmail : String)
    (locs : List Location) (v : Int) (hge : st.getItemThrows = false) :
    getLocations
      { st with localItems := (getStorageKey userEmail, .env locs v) :: st.localItems }
      userEmail = locs := by
  unfold getLocations getFromStorage
  simp [hge, List.lookup]

theorem saveLocation_success_eq (newId : String) (now : Nat) (userEmail : String)
    (loc : LocationInput) (st : Store)
    (hv : (validateLocation (some loc)).valid = true)
    (hex : locationExists st userEmail (loc.name.getD "") = false)
    (hse : st.setItemError = none) :
    saveLocation newId now userEmail (some loc) st =
      ({ success := true, error := none, location := some (savedRecord newId now loc) },
       { st with localItems :=
          (getStorageKey userEmail,
           .env (getLocations st userEmail ++ [savedRecord newId now loc]) 1)
          :: st.localItems }) := by
  unfold saveLocation saveToStorage savedRecord
  simp [hv, hex, hse]

/-- C4: after a successful save into an empty collection, a second save
for the same user whose name agrees with the stored one up to letter case
and leading/trailing whitespace fails with the duplicate message, which
contains the substring already; the store is left untouched and the
collection still holds exactly one entry. -/
theorem duplicate_save_rejected_case_whitespace_insensitive
    (userEmail newId1 newId2 : String) (loc1 loc2 : LocationInput)
    (now1 now2 : Nat) (st : Store)
    (hse : st.setItemError = none) (hge : st.getItemThrows = false)
    (hempty : getLocations st userEmail = [])
    (hv1 : (validateLocation (some loc1)).valid = true)
    (hv2 : (validateLocation (some loc2)).valid = true)
    (hdup : normalizeName (loc2.name.getD "") = normalizeName (loc1.name.getD "")) :
    (saveLocation newId2 now2 userEmail (some loc2)
        (saveLocation newId1 now1 userEmail (some loc1) st).2).1.success = false ∧
    (saveLocation newId2 now2 userEmail (some loc2)
        (saveLocation newId1 now1 userEmail (some loc1) st).2).1.error =
      some "This location is already in your favorites" ∧
    occursIn "already".data "This location is already in your favorites".data = true ∧
    (saveLocation newId2 now2 userEmail (some loc2)
        (saveLocation newId1 now1 userEmail (some loc1) st).2).2 =
      (saveLocation newId1 now1 userEmail (some loc1) st).2 ∧
    (getLocations (saveLocation newId2 now2 userEmail (some loc2)
        (saveLocation newId1 now1 userEmail (some loc1) st).2).2 userEmail).length = 1 := by
  have hex1 : locationExists st userEmail (loc1.name.getD "") = false := by
    simp [locationExists, hempty]
  have heq := saveLocation_success_eq newId1 now1 userEmail loc1 st hv1 hex1 hse
  rw [heq, hempty]
  simp only [List.nil_append]
  have hlocs1 := getLocations_localWrite st userEmail [savedRecord newId1 now1 loc1] 1 hge
  have hex2 : locationExists
      { st with localItems :=
        (getStorageKey userEmail, StoredVal.env [savedRecord newId1 now1 loc1] 1)
        :: st.localItems } userEmail (loc2.name.getD "") = true := by
    unfold locationExists
    rw [hlocs1]
    simp [savedRecord, hdup]
  refine ⟨?_, ?_, by decide, ?_, ?_⟩
  · simp [saveLocation, hv2, hex2]
  · simp [saveLocation, hv2, hex2]
  · simp [saveLocation, hv2, hex2]
  · simp [saveLocation, hv2, hex2, hlocs1]

/-- Witness for C4: saving Paris and then a case/whitespace variant of it
into an initially empty store. -/
theorem duplicate_save_rejected_case_whitespace_insensitive_witness :
    (saveLocation "id-2" 2 "user@example.com" (some parisShoutedInput)
        (saveLocation "id-1" 1 "user@example.com" (some parisInput) emptyStore).2).1.success = false ∧
    (saveLocation "id-2" 2 "user@example.com" (some parisShoutedInput)
        (saveLocation "id-1" 1 "user@example.com" (some parisInput) emptyStore).2).1.error =
      some "This location is already in your favorites" ∧
    occursIn "already".data "This location is already in your favorites".data = true ∧
    (saveLocation "id-2" 2 "user@example.com" (some parisShoutedInput)
        (saveLocation "id-1" 1 "user@example.com" (some parisInput) emptyStore).2).2 =
      (saveLocation "id-1" 1 "user@example.com" (some parisInput) emptyStore).2 ∧
    (getLocations (saveLocation "id-2" 2 "user@example.com" (some parisShoutedInput)
        (saveLocation "id-1" 1 "user@example.com" (some parisInput) emptyStore).2).2
      "user@example.com").length = 1 :=
  duplicate_save_rejected_case_whitespace_insensitive
    "user@example.com" "id-1" "id-2" parisInput parisShoutedInput 1 2 emptyStore
    rfl rfl rfl (by decide) (by decide) (by decide)

theorem updateLocation_singleton_success (now2 : Nat) (userEmail locationId : String)
    (u : LocationUpdates) (st1 : Store) (r : Location)
    (hlocs : getLocations st1 userEmail = [r])
    (hid : r.id = locationId)
    (hse1 : st1.setItemError = none)
    (hval : (validateLocation (some (locationToInput
      (mergedUpdate locationId u r now2)))).valid = true) :
    updateLocation now2 userEmail locationId u st1 =
      ({ success := true, error := none,
         location := some (mergedUpdate locationId u r now2) },
       { st1 with localItems :=
          (getStorageKey userEmail,
           .env [mergedUpdate locationId u r now2] 1) :: st1.localItems }) := by
  unfold updateLocation saveToStorage
  rw [hlocs]
  simp only [mergedUpdate] at hval
  simp [List.findIdx?_cons, hid, hval, hse1, List.enum, List.enumFrom, mergedUpdate]

theorem updateLocation_singleton_invalid (now2 : Nat) (userEmail locationId : String)
    (u : LocationUpdates) (st1 : Store) (r : Location)
    (hlocs : getLocations st1 userEmail = [r])
    (hid : r.id = locationId)
    (hval : (validateLocation (some (locationToInput
      (mergedUpdate locationId u r now2)))).valid = false) :
    (updateLocation now2 userEmail locationId u st1).1.success = false := by
  unfold updateLocation
  rw [hlocs]
  simp only [mergedUpdate] at hval
  simp [List.findIdx?_cons, hid, hval]

/-- C2: after saving a valid location into an empty collection and
successfully updating it with a new name (the edit flow passes the trimmed
name as the single updated field; the other update fields are arbitrary
and the forced fields are ignored), the stored record keeps its id, its
coordinates and its addedAt timestamp, its name becomes the trimmed new
name, and its updatedAt is the update time, which is at least addedAt for
a monotone clock. -/
theorem update_preserves_immutable_fields
    (userEmail newId newName : String) (loc : LocationInput) (u : LocationUpdates)
    (now1 now2 : Nat) (st : Store)
    (hse : st.setItemError = none) (hge : st.getItemThrows = false)
    (hempty : getLocations st userEmail = [])
    (hv : (validateLocation (some loc)).valid = true)
    (hname : u.name = some (jsTrim newName))
    (htime : now1 ≤ now2)
    (hupd : (updateLocation now2 userEmail newId u
        (saveLocation newId now1 userEmail (some loc) st).2).1.success = true) :
    ∃ original : Location,
      getLocations (saveLocation newId now1 userEmail (some loc) st).2 userEmail
        = [original] ∧
      original.id = newId ∧ original.addedAt = now1 ∧ original.updatedAt = now1 ∧
      getLocations (updateLocation now2 userEmail newId u
          (saveLocation newId now1 userEmail (some loc) st).2).2 userEmail =
        [{ original with name := jsTrim newName, query := u.query.getD original.query, updatedAt := now2 }] ∧
      now1 ≤ now2 := by
  have hex1 : locationExists st userEmail (loc.name.getD "") = false := by
    simp [locationExists, hempty]
  have heq := saveLocation_success_eq newId now1 userEmail loc st hv hex1 hse
  rw [heq] at hupd ⊢
  simp only [hempty, List.nil_append] at hupd ⊢
  have hlocs1 := getLocations_localWrite st userEmail [savedRecord newId now1 loc] 1 hge
  by_cases hval : (validateLocation (some (locationToInput
      (mergedUpdate newId u (savedRecord newId now1 loc) now2)))).valid = true
  · have hueq := updateLocation_singleton_success now2 userEmail newId u _
      (savedRecord newId now1 loc) hlocs1 rfl hse hval
    rw [hueq]
    refine ⟨savedRecord newId now1 loc, hlocs1, rfl, rfl, rfl, ?_, htime⟩
    have hlocs2 := getLocations_localWrite
      { st with localItems :=
          (getStorageKey userEmail, StoredVal.env [savedRecord newId now1 loc] 1)
          :: st.localItems }
      userEmail
      [mergedUpdate newId u (savedRecord newId now1 loc) now2] 1 hge
    rw [hlocs2]
    simp [mergedUpdate, savedRecord, hname]
  · rw [Bool.not_eq_true] at hval
    have hfail := updateLocation_singleton_invalid now2 userEmail newId u _
      (savedRecord newId now1 loc) hlocs1 rfl hval
    rw [hfail] at hupd
    cases hupd

/-- Witness for C2: saving Paris at time 1 and renaming it to the trimmed
form of a padded Berlin at time 2. -/
theorem update_preserves_immutable_fields_witness :
    ∃ original : Location,
      getLocations (saveLocation "id-1" 1 "user@example.com" (some parisInput) emptyStore).2
        "user@example.com" = [original] ∧
      original.id = "id-1" ∧ original.addedAt = 1 ∧ original.updatedAt = 1 ∧
      getLocations (updateLocation 2 "user@example.com" "id-1" berlinRename
          (saveLocation "id-1" 1 "user@example.com" (some parisInput) emptyStore).2).2
        "user@example.com" =
        [{ original with name := jsTrim " Berlin ", query := berlinRename.query.getD original.query, updatedAt := 2 }] ∧
      (1 : Nat) ≤ 2 :=
  update_preserves_immutable_fields "user@example.com" "id-1" " Berlin " parisInput
    berlinRename 1 2 emptyStore rfl rfl rfl (by decide) rfl (by decide) (by decide)

theorem saveToStorage_ok_persistTarget (st : Store) (key : String) (v : StoredVal)
    (st2 : Store) (h : saveToStorage st key v = .ok st2) :
    List.lookup key (persistTarget st2) = some v := by
  unfold saveToStorage at h
  split at h
  next hnone =>
    cases h
    simp [persistTarget, hnone, List.lookup]
  next e hsome =>
    split at h
    next hq =>
      simp [handleStorageQuotaError] at h
    next hq =>
      cases h
      simp [persistTarget, hsome, List.lookup]

theorem saveLocation_success_store (newId : String) (now : Nat) (userEmail : String)
    (location : Option LocationInput) (st : Store)
    (h : (saveLocation newId now userEmail location st).1.success = true) :
    ∃ locs2, saveToStorage st (getStorageKey userEmail) (.env locs2 1) =
      .ok (saveLocation newId now userEmail location st).2 := by
  cases location with
  | none => exact absurd h (by simp [saveLocation])
  | some loc =>
    by_cases hv : (validateLocation (some loc)).valid = true
    · by_cases hex : locationExists st userEmail (loc.name.getD "") = true
      · exact absurd h (by simp [saveLocation, hv, hex])
      · rw [Bool.not_eq_true] at hex
        cases hsts : saveToStorage st (getStorageKey userEmail)
            (.env (getLocations st userEmail ++ [savedRecord newId now loc]) 1) with
        | ok st2 =>
          have hsts2 := hsts
          simp only [savedRecord] at hsts2
          have heq : saveLocation newId now userEmail (some loc) st =
              ({ success := true, error := none,
                 location := some (savedRecord newId now loc) }, st2) := by
            unfold saveLocation
            simp [hv, hex, hsts2, savedRecord]
          rw [heq]
          exact ⟨getLocations st userEmail ++ [savedRecord newId now loc], hsts⟩
        | error e =>
          have hsts2 := hsts
          simp only [savedRecord] at hsts2
          have heq : (saveLocation newId now userEmail (some loc) st).1.success = false := by
            unfold saveLocation
            simp [hv, hex, hsts2, savedRecord]
          rw [heq] at h
          cases h
    · rw [Bool.not_eq_true] at hv
      exact absurd h (by simp [saveLocation, hv])

theorem updateLocation_success_store (now : Nat) (userEmail locationId : String)
    (updates : LocationUpdates) (st : Store)
    (h : (updateLocation now userEmail locationId updates st).1.success = true) :
    ∃ locs2, saveToStorage st (getStorageKey userEmail) (.env locs2 1) =
      .ok (updateLocation now userEmail locationId updates st).2 := by
  unfold updateLocation at h ⊢
  dsimp only at h ⊢
  split at h
  next hidx => simp at h
  next index hidx =>
    split at h
    next hval => simp at h
    next hval =>
      split at h
      next hdup => simp at h
      next hdup =>
        split at h
        next st2 hsts =>
          rw [if_neg hval, if_neg hdup]
          exact ⟨_, hsts⟩
        next e hsts => simp at h

theorem deleteLocation_success_store (userEmail locationId : String) (st : Store)
    (h : (deleteLocation userEmail locationId st).1.success = true) :
    ∃ locs2, saveToStorage st (getStorageKey userEmail) (.env locs2 1) =
      .ok (deleteLocation userEmail locationId st).2 := by
  unfold deleteLocation at h ⊢
  dsimp only at h ⊢
  split at h
  next hidx => simp at h
  next index hidx =>
    split at h
    next st2 hsts => exact ⟨_, hsts⟩
    next e hsts => simp at h

/-- C9: every successful mutating repository operation persists, into the
map the write landed in, an envelope whose version tag is 1 and whose
locations field is an array. -/
theorem mutations_persist_version1_envelope :
    ∀ (newId : String) (now : Nat) (userEmail locationId : String)
      (location : Option LocationInput) (updates : LocationUpdates) (st : Store),
      ((saveLocation newId now userEmail location st).1.success = true →
        ∃ locs, List.lookup (getStorageKey userEmail)
          (persistTarget (saveLocation newId now userEmail location st).2) =
            some (StoredVal.env locs 1)) ∧
      ((updateLocation now userEmail locationId updates st).1.success = true →
        ∃ locs, List.lookup (getStorageKey userEmail)
          (persistTarget (updateLocation now userEmail locationId updates st).2) =
            some (StoredVal.env locs 1)) ∧
      ((deleteLocation userEmail locationId st).1.success = true →
        ∃ locs, List.lookup (getStorageKey userEmail)
          (persistTarget (deleteLocation userEmail locationId st).2) =
            some (StoredVal.env locs 1)) := by
  intro newId now userEmail locationId location updates st
  refine ⟨?_, ?_, ?_⟩
  · intro h
    obtain ⟨locs2, hs⟩ := saveLocation_success_store newId now userEmail location st h
    exact ⟨locs2, saveToStorage_ok_persistTarget _ _ _ _ hs⟩
  · intro h
    obtain ⟨locs2, hs⟩ := updateLocation_success_store now userEmail locationId updates st h
    exact ⟨locs2, saveToStorage_ok_persistTarget _ _ _ _ hs⟩
  · intro h
    obtain ⟨locs2, hs⟩ := deleteLocation_success_store userEmail locationId st h
    exact ⟨locs2, saveToStorage_ok_persistTarget _ _ _ _ hs⟩

/-- Witness for C9: a successful save, update and delete on concrete
stores, with the persisted envelope inspected after each. -/
theorem mutations_persist_version1_envelope_witness :
    (∃ locs, List.lookup (getStorageKey "user@example.com")
      (persistTarget (saveLocation "id-1" 1 "user@example.com" (some parisInput)
        emptyStore).2) = some (StoredVal.env locs 1)) ∧
    (∃ locs, List.lookup (getStorageKey "user@example.com")
      (persistTarget (updateLocation 2 "user@example.com" "id-1" berlinRename
        (saveLocation "id-1" 1 "user@example.com" (some parisInput) emptyStore).2).2) =
      some (StoredVal.env locs 1)) ∧
    (∃ locs, List.lookup (getStorageKey "user@example.com")
      (persistTarget (deleteLocation "user@example.com" "id-1"
        (saveLocation "id-1" 1 "user@example.com" (some parisInput) emptyStore).2).2) =
      some (StoredVal.env locs 1)) :=
  ⟨(mutations_persist_version1_envelope "id-1" 1 "user@example.com" "id-1"
      (some parisInput) berlinRename emptyStore).1 (by decide),
   (mutations_persist_version1_envelope "id-2" 2 "user@example.com" "id-1"
      (some parisInput) berlinRename
      (saveLocation "id-1" 1 "user@example.com" (some parisInput) emptyStore).2).2.1
      (by decide),
   (mutations_persist_version1_envelope "id-2" 2 "user@example.com" "id-1"
      (some parisInput) berlinRename
      (saveLocation "id-1" 1 "user@example.com" (some parisInput) emptyStore).2).2.2
      (by decide)⟩

end WeatherApp
